import Mathlib

/-!
Verification of the BookWorm book-tracking service (FastAPI + SQLAlchemy)
against its natural-language specification.

The Python source under `src/app/` is shallowly embedded: each route
handler becomes a pure Lean function over an explicit `Database` value,
external HTTP calls become oracle parameters of an `ExtResult` type, and
`HTTPException` raising becomes an `Except` error result.  The mutable
session/commit discipline of the handlers is modelled by returning the
post-commit database (on an error path the original database is returned,
matching transaction rollback).
-/

namespace BookWorm

/-- `app.models.UserRole` (src/app/models.py lines 12-14). -/
inductive UserRole where
  | USER
  | ADMIN
  deriving DecidableEq, Repr

/-- `app.models.ReadingStatus` (src/app/models.py lines 6-10). -/
inductive ReadingStatus where
  | PLAN_TO_READ
  | READING
  | COMPLETED
  | DROPPED
  deriving DecidableEq, Repr

/-- `app.models.User` row (src/app/models.py lines 16-25). -/
structure User where
  id : Nat
  username : String
  email : String
  hashed_password : String
  role : UserRole
  deriving DecidableEq, Repr

/-- `app.models.Book` row (src/app/models.py lines 27-37). -/
structure Book where
  id : Nat
  title : String
  author : String
  isbn : Option String
  description : Option String
  cover_url : Option String
  deriving DecidableEq, Repr

/-- `app.models.ShelfItem` row (src/app/models.py lines 39-51). -/
structure ShelfItem where
  id : Nat
  user_id : Nat
  book_id : Nat
  status : ReadingStatus
  rating : Option Nat
  review : Option String
  deriving DecidableEq, Repr

/-- The three persisted tables (src/app/models.py). -/
structure Database where
  users : List User
  books : List Book
  shelf_items : List ShelfItem
  deriving DecidableEq, Repr

/-- `fastapi.HTTPException` as raised by the handlers: a status code and a
detail message. -/
structure HTTPException where
  status_code : Nat
  detail : String
  deriving DecidableEq, Repr

/-! Row predicates of the handlers' `select(...).where(...)` queries,
named so that theorem hypotheses match the definitions syntactically. -/

/-- `select(Book).where(Book.isbn == isbn)`. -/
def byIsbn (isbn : String) (b : Book) : Bool :=
  b.isbn = some isbn

/-- `select(Book).where(Book.id == book_id)`. -/
def byBookId (book_id : Nat) (b : Book) : Bool :=
  b.id = book_id

/-- `select(User).where(User.id == user_id)`. -/
def byUserId (user_id : Nat) (u : User) : Bool :=
  u.id = user_id

/-- `select(User).where(User.id == user_id_int)` with the integer decoded
from the token subject. -/
def byIdInt (n : Int) (u : User) : Bool :=
  (u.id : Int) = n

/-- `select(User).where(User.username == username)`. -/
def byUsername (un : String) (u : User) : Bool :=
  u.username = un

/-- `User.email == email`, the storage-level uniqueness probe. -/
def byEmail (em : String) (u : User) : Bool :=
  u.email = em

/-- `select(User).where(User.username == x, User.id != user_id)`:
another user already holds this username. -/
def usernameTakenBy (un : String) (user_id : Nat) (u : User) : Bool :=
  u.username = un ∧ u.id ≠ user_id

/-- `select(User).where(User.email == x, User.id != user_id)`: another
user already holds this email. -/
def emailTakenBy (em : String) (user_id : Nat) (u : User) : Bool :=
  u.email = em ∧ u.id ≠ user_id

/-- `select(ShelfItem).where(ShelfItem.id == item_id).where(ShelfItem.user_id == uid)`:
the owner-scoped shelf query. -/
def ownShelfItem (item_id uid : Nat) (si : ShelfItem) : Bool :=
  si.id = item_id ∧ si.user_id = uid

/-- `select(ShelfItem).where(ShelfItem.user_id == user_id)`: all shelf
items of one user. -/
def ownedBy (user_id : Nat) (si : ShelfItem) : Bool :=
  si.user_id = user_id

/-- Python's `str.strip()` with no argument: remove whitespace from both
ends (src/app/routers/books.py line 86).  Defined over the character list
so that it evaluates by structural recursion. -/
def pyStrip (s : String) : String :=
  ⟨((s.data.dropWhile Char.isWhitespace).reverse.dropWhile Char.isWhitespace).reverse⟩

/-- Value of one decimal digit character, `none` otherwise. -/
def charDigit? (c : Char) : Option Nat :=
  if c.isDigit then some (c.toNat - '0'.toNat) else none

/-- Decimal value of a non-empty all-digit character list, `none`
otherwise. -/
def digitsVal? : List Char → Option Nat
  | [] => none
  | cs =>
    cs.foldl
      (fun acc c =>
        match acc, charDigit? c with
        | some a, some d => some (a * 10 + d)
        | _, _ => none)
      (some 0)

/-- Python's `int(str)` conversion as used on the token subject
(src/app/dependencies.py line 25): optional surrounding whitespace, an
optional sign, then decimal digits; `none` models the `ValueError` on any
other shape. -/
def pyInt? (s : String) : Option Int :=
  let cs := ((s.data.dropWhile Char.isWhitespace).reverse.dropWhile Char.isWhitespace).reverse
  match cs with
  | '-' :: rest => (digitsVal? rest).map (fun n => -(n : Int))
  | '+' :: rest => (digitsVal? rest).map (fun n => (n : Int))
  | _ => (digitsVal? cs).map (fun n => (n : Int))

/-- Python's slice truncation `s[:10000]` guarded by `len(s) > 10000`
(src/app/routers/books.py lines 154-155), over the character list. -/
def pyTruncate (s : String) : String :=
  if s.length > 10000 then ⟨s.data.take 10000⟩ else s

/-- Outcome of one `httpx` request, as observed by the handler: a timeout
(`httpx.TimeoutException`), a transport error (`httpx.RequestError`), or a
response carrying an HTTP status code and an already-decoded JSON body. -/
inductive ExtResult (α : Type) where
  | timeout
  | requestError (msg : String)
  | response (status_code : Nat) (body : α)
  deriving DecidableEq, Repr

/-- The `title` field of the Open Library book payload as the handler
inspects it (src/app/routers/books.py lines 122-124): absent, a string, or
present but not a string. -/
inductive TitleField where
  | absent
  | str (s : String)
  | nonString
  deriving DecidableEq, Repr

/-- One entry of the `authors` list of the Open Library book payload
(src/app/routers/books.py lines 126-147): a dict whose `"key"` lookup
yields the given string (`""` when the key is missing), a plain string, or
some other JSON value. -/
inductive AuthorEntry where
  | dict (key : String)
  | str (s : String)
  | other
  deriving DecidableEq, Repr

/-- The `description` field of the Open Library book payload
(src/app/routers/books.py lines 149-155): absent (`get` default `""`), a
string, or a dict whose `"value"` entry is the given optional string. -/
inductive DescField where
  | absent
  | str (s : String)
  | dict (value : Option String)
  deriving DecidableEq, Repr

/-- Decoded JSON body of the primary Open Library call
`GET https://openlibrary.org/isbn/{isbn}.json`, restricted to the fields
the handler reads (src/app/routers/books.py lines 119-161). -/
structure BookData where
  title : TitleField
  authors : List AuthorEntry
  description : DescField
  covers : List Nat
  deriving DecidableEq, Repr

/-- Decoded JSON body of the secondary author call
`GET https://openlibrary.org{author_key}.json`: the handler only reads the
optional `"name"` field (src/app/routers/books.py lines 140-141). -/
structure AuthorData where
  name : Option String
  deriving DecidableEq, Repr

/-- Fresh autoincrement id for the `books` table. -/
def nextBookId (db : Database) : Nat :=
  (db.books.map (·.id)).foldr max 0 + 1

/-- Fresh autoincrement id for the `users` table. -/
def nextUserId (db : Database) : Nat :=
  (db.users.map (·.id)).foldr max 0 + 1

/-- Title normalization (src/app/routers/books.py lines 122-124):
`title = book_data.get("title", "Unknown title")` followed by
`if not title or not isinstance(title, str): title = "Unknown title"`. -/
def normalizeTitle : TitleField → String
  | .str s => if s = "" then "Unknown title" else s
  | _ => "Unknown title"

/-- Author normalization (src/app/routers/books.py lines 126-147).
Returns the author string together with the number of secondary external
calls made (0 or 1).  The secondary call is consulted only when the first
author entry is a dict with a non-empty `"key"`; any failure of that call
(timeout, transport error, non-200 status) is swallowed and the author
falls back to `"Unknown author"`. -/
def normalizeAuthor (authors : List AuthorEntry)
    (secondary : ExtResult AuthorData) : String × Nat :=
  match authors with
  | [] => ("Unknown author", 0)
  | a :: _ =>
    match a with
    | .dict key =>
      if key = "" then ("Unknown author", 0)
      else
        match secondary with
        | .response st ad =>
          if st = 200 then (ad.name.getD "Unknown author", 1) else ("Unknown author", 1)
        | _ => ("Unknown author", 1)
    | .str s => (s, 0)
    | .other => ("Unknown author", 0)

/-- Description normalization (src/app/routers/books.py lines 149-155):
unwrap a dict to its `"value"` (with `or ""` turning a null value into
`""`), default to `""`, truncate to 10000 characters. -/
def normalizeDescription : DescField → String
  | .absent => ""
  | .str s => pyTruncate s
  | .dict v => pyTruncate (v.getD "")

/-- Cover URL construction (src/app/routers/books.py lines 157-161): build
a URL from the first cover identifier when the list is non-empty. -/
def normalizeCover : List Nat → Option String
  | [] => none
  | c :: _ => some ("https://covers.openlibrary.org/b/id/" ++ toString c ++ "-L.jpg")

/-- Result of one run of the `search_book_by_isbn` handler: the HTTP
outcome (status code and Book body on success), the database after the
request, and how many primary and secondary external calls were made. -/
structure SearchOutcome where
  result : Except HTTPException (Nat × Book)
  db : Database
  primaryCalls : Nat
  secondaryCalls : Nat
  deriving Repr

/-- `search_book_by_isbn` (src/app/routers/books.py lines 78-193), the
body of the handler after authentication.  The route decorator carries
`status_code=status.HTTP_201_CREATED` and the handler never overrides it,
so every successful return — the cache hit at line 94 included — is
serialized by FastAPI with status 201.  `primary` and `secondary` are the
oracle outcomes of the two `httpx` calls; the counts record which calls
the handler actually performed. -/
def search_book_by_isbn (isbnRaw : String) (db : Database)
    (primary : ExtResult BookData) (secondary : ExtResult AuthorData) :
    SearchOutcome :=
  let isbn := pyStrip isbnRaw
  match db.books.find? (byIsbn isbn) with
  | some existing_book =>
    { result := .ok (201, existing_book), db := db
      primaryCalls := 0, secondaryCalls := 0 }
  | none =>
    match primary with
    | .timeout =>
      { result := .error ⟨504, "Timeout during external API call"⟩, db := db
        primaryCalls := 1, secondaryCalls := 0 }
    | .requestError msg =>
      { result := .error ⟨500, "Error occurred while accessing external API: " ++ msg⟩
        db := db, primaryCalls := 1, secondaryCalls := 0 }
    | .response st book_data =>
      if st = 404 then
        { result := .error ⟨404, "Book not found with this ISBN"⟩, db := db
          primaryCalls := 1, secondaryCalls := 0 }
      else if st ≠ 200 then
        { result := .error ⟨500, "Error occurred during external API call"⟩, db := db
          primaryCalls := 1, secondaryCalls := 0 }
      else
        let title := normalizeTitle book_data.title
        let authorCalls := normalizeAuthor book_data.authors secondary
        let new_book : Book :=
          { id := nextBookId db
            title := title
            author := authorCalls.1
            isbn := some isbn
            description := some (normalizeDescription book_data.description)
            cover_url := normalizeCover book_data.covers }
        { result := .ok (201, new_book)
          db := { db with books := db.books ++ [new_book] }
          primaryCalls := 1, secondaryCalls := authorCalls.2 }

/-- `app.schemas.BookCreate` (src/app/schemas.py lines 15-23). -/
structure BookCreate where
  title : String
  author : String
  isbn : Option String
  description : Option String
  cover_url : Option String
  deriving DecidableEq, Repr

/-- `app.schemas.UserUpdate` (src/app/schemas.py lines 38-41): every field
optional, absent fields are not applied. -/
structure UserUpdate where
  username : Option String
  email : Option String
  role : Option UserRole
  deriving DecidableEq, Repr

/-- `app.schemas.ShelfItemUpdate` (src/app/schemas.py lines 58-61). -/
structure ShelfItemUpdate where
  status : Option ReadingStatus
  rating : Option Nat
  review : Option String
  deriving DecidableEq, Repr

/-- `update_book` (src/app/routers/books.py lines 36-57), the body of the
handler after authentication.  There is no role check: any authenticated
`current_user` reaches the mutation.  Returns the HTTP outcome and the
post-request database. -/
def update_book (book_id : Nat) (book_update : BookCreate) (db : Database)
    (current_user : User) : Except HTTPException Book × Database :=
  let _ := current_user
  match db.books.find? (byBookId book_id) with
  | none => (.error ⟨404, "Book not found"⟩, db)
  | some db_book =>
    let b : Book :=
      { db_book with
        title := book_update.title
        author := book_update.author
        isbn := book_update.isbn
        description := book_update.description
        cover_url := book_update.cover_url }
    (.ok b, { db with books := db.books.map (fun x => if x.id = book_id then b else x) })

/-- `delete_book` (src/app/routers/books.py lines 59-76), the body of the
handler after authentication: ADMIN-only, 404 when absent, success is 204
with no body. -/
def delete_book (book_id : Nat) (db : Database) (current_user : User) :
    Except HTTPException Unit × Database :=
  if current_user.role ≠ UserRole.ADMIN then
    (.error ⟨403, "Only administrators can delete books"⟩, db)
  else
    match db.books.find? (byBookId book_id) with
    | none => (.error ⟨404, "Book not found"⟩, db)
    | some _ => (.ok (), { db with books := db.books.filter (fun x => !(byBookId book_id x)) })

/-- `update_shelf_item` (src/app/routers/shelf.py lines 62-89), the body of
the handler after authentication.  The query is scoped to the caller
(`.where(ShelfItem.user_id == current_user.id)`), so an item owned by
another user is indistinguishable from an absent one: both give 404. -/
def update_shelf_item (item_id : Nat) (update_data : ShelfItemUpdate)
    (db : Database) (current_user : User) :
    Except HTTPException ShelfItem × Database :=
  match db.shelf_items.find? (ownShelfItem item_id current_user.id) with
  | none => (.error ⟨404, "Shelf item not found"⟩, db)
  | some shelf_item =>
    let si : ShelfItem :=
      { shelf_item with
        status := update_data.status.getD shelf_item.status
        rating := match update_data.rating with
          | some r => some r
          | none => shelf_item.rating
        review := match update_data.review with
          | some r => some r
          | none => shelf_item.review }
    (.ok si,
      { db with shelf_items := db.shelf_items.map (fun x => if x.id = item_id then si else x) })

/-- `remove_from_shelf` (src/app/routers/shelf.py lines 91-109), the body
of the handler after authentication, with the same owner-scoped query as
`update_shelf_item`. -/
def remove_from_shelf (item_id : Nat) (db : Database) (current_user : User) :
    Except HTTPException Unit × Database :=
  match db.shelf_items.find? (ownShelfItem item_id current_user.id) with
  | none => (.error ⟨404, "Shelf item not found"⟩, db)
  | some _ =>
    (.ok (),
      { db with shelf_items :=
          db.shelf_items.filter (fun x => !(ownShelfItem item_id current_user.id x)) })

/-- Modelled from the spec: `security.get_password_hash` lives in
`src/app/security.py`, which is not under src/; the spec (§4.1) only
requires a one-way hash, and no claim depends on its value, so it is
modelled as an uninterpreted tagging function. -/
def get_password_hash (password : String) : String :=
  "hashed:" ++ password

/-- `register` (src/app/routers/auth.py lines 14-34).  The handler
pre-checks only the username (lines 16-20); the email uniqueness declared
on the table (src/app/models.py line 21) is enforced by the storage engine
at `db.commit()`: the resulting `IntegrityError` is uncaught and surfaces
as FastAPI's generic 500 response.  `newRegUser` is the `models.User`
constructed at src/app/routers/auth.py lines 24-29. -/
def newRegUser (username email password : String) (db : Database) : User :=
  { id := nextUserId db
    username := username
    email := email
    hashed_password := get_password_hash password
    role := UserRole.USER }

/-- `register` continued (src/app/routers/auth.py lines 14-34): pre-check
of the username, construction of the new row, commit. -/
def register (username email password : String) (db : Database) :
    Except HTTPException User × Database :=
  match db.users.find? (byUsername username) with
  | some _ => (.error ⟨400, "Username already registered"⟩, db)
  | none =>
    let new_user := newRegUser username email password db
    if db.users.any (byEmail email) then
      (.error ⟨500, "Internal Server Error"⟩, db)
    else
      (.ok new_user, { db with users := db.users ++ [new_user] })

/-- The username step of `update_user` (src/app/routers/users.py lines
56-65): when the request carries a username, reject with 400 if another
user holds it, else set it on the target row. -/
def applyUsername (user_id : Nat) (user_update : UserUpdate) (db : Database)
    (db_user : User) : Except HTTPException User :=
  match user_update.username with
  | none => .ok db_user
  | some un =>
    if db.users.any (usernameTakenBy un user_id) then
      .error ⟨400, "Username already taken"⟩
    else .ok { db_user with username := un }

/-- The email step of `update_user` (src/app/routers/users.py lines
67-76): when the request carries an email, reject with 400 if another
user holds it, else set it on the target row. -/
def applyEmail (user_id : Nat) (user_update : UserUpdate) (db : Database)
    (u1 : User) : Except HTTPException User :=
  match user_update.email with
  | none => .ok u1
  | some em =>
    if db.users.any (emailTakenBy em user_id) then
      .error ⟨400, "Email already taken"⟩
    else .ok { u1 with email := em }

/-- The role step of `update_user` (src/app/routers/users.py lines
78-79): the role field is applied only when the caller is an ADMIN,
silently skipped otherwise. -/
def applyRole (user_update : UserUpdate) (current_user : User) (u2 : User) : User :=
  match user_update.role with
  | some r => if current_user.role = UserRole.ADMIN then { u2 with role := r } else u2
  | none => u2

/-- `update_user` (src/app/routers/users.py lines 40-83), the body of the
handler after authentication: ownership/role gate first, then existence,
then the per-field partial update steps in source order; any rejection
leaves the database unchanged. -/
def update_user (user_id : Nat) (user_update : UserUpdate) (db : Database)
    (current_user : User) : Except HTTPException User × Database :=
  if current_user.role ≠ UserRole.ADMIN ∧ current_user.id ≠ user_id then
    (.error ⟨403, "Not authorized"⟩, db)
  else
    match db.users.find? (byUserId user_id) with
    | none => (.error ⟨404, "User not found"⟩, db)
    | some db_user =>
      match applyUsername user_id user_update db db_user with
      | .error e => (.error e, db)
      | .ok u1 =>
        match applyEmail user_id user_update db u1 with
        | .error e => (.error e, db)
        | .ok u2 =>
          let u3 := applyRole user_update current_user u2
          (.ok u3, { db with users := db.users.map (fun x => if x.id = user_id then u3 else x) })

/-- `delete_user` (src/app/routers/users.py lines 85-113), the body of the
handler after authentication: ADMIN-only (403), self-deletion rejected
with 400, 404 when absent; on success the user's shelf items are deleted
with the user. -/
def delete_user (user_id : Nat) (db : Database) (current_user : User) :
    Except HTTPException Unit × Database :=
  if current_user.role ≠ UserRole.ADMIN then
    (.error ⟨403, "Only administrators can delete users"⟩, db)
  else if current_user.id = user_id then
    (.error ⟨400, "Cannot delete your own account"⟩, db)
  else
    match db.users.find? (byUserId user_id) with
    | none => (.error ⟨404, "User not found"⟩, db)
    | some _ =>
      (.ok (),
        { db with
          users := db.users.filter (fun x => !(byUserId user_id x))
          shelf_items := db.shelf_items.filter (fun si => !(ownedBy user_id si)) })

/-- `get_user` (src/app/routers/users.py lines 24-38), the body of the
handler after authentication: ownership/role gate first, existence lookup
second. -/
def get_user (user_id : Nat) (db : Database) (current_user : User) :
    Except HTTPException User :=
  if current_user.role ≠ UserRole.ADMIN ∧ current_user.id ≠ user_id then
    .error ⟨403, "Not authorized"⟩
  else
    match db.users.find? (byUserId user_id) with
    | none => .error ⟨404, "User not found"⟩
    | some u => .ok u

/-- What `jose.jwt.decode` hands back to `get_current_user`
(src/app/dependencies.py lines 16-22): `jwtError` covers every cause on
which the library raises a `JWTError` — bad signature, malformed payload,
and expiry in the past (`ExpiredSignatureError` is a `JWTError`);
otherwise the decoded payload's `"sub"` lookup yields an optional
string. -/
inductive DecodeResult where
  | jwtError
  | payload (sub : Option String)
  deriving DecidableEq, Repr

/-- `get_current_user` (src/app/dependencies.py lines 10-35): every
failure — JWT error, missing subject claim, non-integer subject (Python
`int()` modelled by `pyInt?`), or a subject id with no stored user
— raises the one `credentials_exception`
(401, "Could not validate credentials"). -/
def get_current_user (decoded : DecodeResult) (db : Database) :
    Except HTTPException User :=
  let credentials_exception : HTTPException := ⟨401, "Could not validate credentials"⟩
  match decoded with
  | .jwtError => .error credentials_exception
  | .payload none => .error credentials_exception
  | .payload (some user_id) =>
    match pyInt? user_id with
    | none => .error credentials_exception
    | some user_id_int =>
      match db.users.find? (byIdInt user_id_int) with
      | none => .error credentials_exception
      | some user => .ok user

/-- The full `POST /books/search-by-isbn` route (src/app/routers/books.py
lines 78-83): the handler declares
`current_user: models.User = Depends(dependencies.get_current_user)`, so
FastAPI resolves authentication before the body runs.  `auth = none`
models a request with no bearer token, which `OAuth2PasswordBearer`
rejects with 401 "Not authenticated" before `get_current_user` runs. -/
def search_by_isbn_route (auth : Option DecodeResult) (isbnRaw : String)
    (db : Database) (primary : ExtResult BookData)
    (secondary : ExtResult AuthorData) : SearchOutcome :=
  match auth with
  | none =>
    { result := .error ⟨401, "Not authenticated"⟩, db := db
      primaryCalls := 0, secondaryCalls := 0 }
  | some decoded =>
    match get_current_user decoded db with
    | .error e =>
      { result := .error e, db := db, primaryCalls := 0, secondaryCalls := 0 }
    | .ok _ => search_book_by_isbn isbnRaw db primary secondary

/-! ## Uniqueness invariants of the `users` table (src/app/models.py lines 19-21) -/

/-- Primary-key uniqueness of `users.id`. -/
def IdsUnique (db : Database) : Prop :=
  db.users.Pairwise (fun a b => a.id ≠ b.id)

/-- The `unique=True` constraint on `users.username`. -/
def UsernamesUnique (db : Database) : Prop :=
  db.users.Pairwise (fun a b => a.username ≠ b.username)

/-- The `unique=True` constraint on `users.email`. -/
def EmailsUnique (db : Database) : Prop :=
  db.users.Pairwise (fun a b => a.email ≠ b.email)

/-- A secondary author lookup that fails in one of the ways the spec lists:
timeout, transport error, or a non-200 response. -/
def secondaryFails : ExtResult AuthorData → Prop
  | .timeout => True
  | .requestError _ => True
  | .response st _ => st ≠ 200

/-! ## Concrete fixtures used by witnesses and counterexamples -/

/-- An ADMIN user on file. -/
def alice : User := ⟨1, "alice", "alice@example.com", "hashed:pw", .ADMIN⟩

/-- A plain USER on file. -/
def bob : User := ⟨2, "bob", "bob@example.com", "hashed:pw2", .USER⟩

/-- A catalog book with a known ISBN. -/
def matilda : Book := ⟨1, "Matilda", "Roald Dahl", some "9780140328721", some "", none⟩

/-- Two users and one book. -/
def dbM : Database := ⟨[alice, bob], [matilda], []⟩

/-- Two users, empty catalog. -/
def dbEmpty : Database := ⟨[alice, bob], [], []⟩

/-- Two users, one book, and one shelf item owned by user 1 (alice). -/
def dbShelf : Database := ⟨[alice, bob], [matilda], [⟨1, 1, 1, .READING, none, none⟩]⟩

/-- An Open Library payload whose first author entry is a dict with a
lookup key, forcing the secondary call. -/
def bd0 : BookData := ⟨.str "Matilda", [.dict "/authors/OL34184A"], .absent, []⟩

/-- A book-update request body. -/
def upd0 : BookCreate := ⟨"New title", "New author", none, none, none⟩

/-! ## C1: ISBN search, cache hit vs. cache miss -/

/-- C1 counterexample: the claim says a cache hit returns the existing
Book with HTTP status 200, but the route decorator fixes the success
status at 201 and the handler never overrides it, so the cache hit is
returned with 201 (and zero external calls). -/
theorem C1_counterexample :
    (search_book_by_isbn " 9780140328721 " dbM .timeout .timeout).result = .ok (201, matilda)
    ∧ (search_book_by_isbn " 9780140328721 " dbM .timeout .timeout).primaryCalls = 0
    ∧ (201 : Nat) ≠ 200 :=
  ⟨rfl, rfl, by decide⟩

/-- C1 (amended): when a Book with the trimmed ISBN exists, the handler
returns it with status 201 (not 200), makes zero external calls and
leaves the catalog unchanged; when none exists it makes exactly one
primary external call, and on upstream success returns status 201 with a
Book carrying the trimmed ISBN appended to the catalog. -/
theorem C1_cache_hit_and_miss (isbnRaw : String) (db : Database)
    (primary : ExtResult BookData) (secondary : ExtResult AuthorData) :
    (∀ b, db.books.find? (byIsbn (pyStrip isbnRaw)) = some b →
      search_book_by_isbn isbnRaw db primary secondary
        = { result := .ok (201, b), db := db, primaryCalls := 0, secondaryCalls := 0 })
    ∧ (db.books.find? (byIsbn (pyStrip isbnRaw)) = none →
      (search_book_by_isbn isbnRaw db primary secondary).primaryCalls = 1
      ∧ ∀ bd, primary = .response 200 bd →
        ∃ nb, (search_book_by_isbn isbnRaw db primary secondary).result = .ok (201, nb)
          ∧ nb.isbn = some (pyStrip isbnRaw)
          ∧ (search_book_by_isbn isbnRaw db primary secondary).db
              = { db with books := db.books ++ [nb] }) := by
  constructor
  · intro b hb
    simp [search_book_by_isbn, hb]
  · intro hnone
    constructor
    · simp only [search_book_by_isbn, hnone]
      cases primary with
      | timeout => rfl
      | requestError msg => rfl
      | response st bd =>
        by_cases h404 : st = 404
        · simp [h404]
        · by_cases h200 : st = 200 <;> simp [h404, h200]
    · intro bd hbd
      subst hbd
      refine ⟨{ id := nextBookId db
                title := normalizeTitle bd.title
                author := (normalizeAuthor bd.authors secondary).1
                isbn := some (pyStrip isbnRaw)
                description := some (normalizeDescription bd.description)
                cover_url := normalizeCover bd.covers }, ?_, rfl, ?_⟩
      · simp [search_book_by_isbn, hnone]
      · simp [search_book_by_isbn, hnone]

/-- C1 witness: applies `C1_cache_hit_and_miss` on concrete databases,
once on a cache hit and once on a cache miss. -/
theorem C1_witness :
    search_book_by_isbn "9780140328721" dbM .timeout .timeout
      = { result := .ok (201, matilda), db := dbM, primaryCalls := 0, secondaryCalls := 0 }
    ∧ (search_book_by_isbn "555" dbM (.response 200 bd0) .timeout).primaryCalls = 1 :=
  ⟨(C1_cache_hit_and_miss "9780140328721" dbM .timeout .timeout).1 matilda rfl,
   ((C1_cache_hit_and_miss "555" dbM (.response 200 bd0) .timeout).2 rfl).1⟩

/-! ## C2: secondary author-lookup failures are swallowed -/

/-- C2: on a cache miss with a successful primary lookup whose first
author entry is a dict with a non-empty key, any failure of the secondary
author call (timeout, transport error, or non-200 status) still yields a
successful 201 outcome whose persisted Book has author
"Unknown author"; the failure is never propagated. -/
theorem C2_secondary_failure_swallowed (isbnRaw : String) (db : Database)
    (bd : BookData) (secondary : ExtResult AuthorData) (key : String)
    (rest : List AuthorEntry)
    (hmiss : db.books.find? (byIsbn (pyStrip isbnRaw)) = none)
    (hauth : bd.authors = .dict key :: rest)
    (hkey : key ≠ "")
    (hfail : secondaryFails secondary) :
    ∃ nb, search_book_by_isbn isbnRaw db (.response 200 bd) secondary
        = { result := .ok (201, nb), db := { db with books := db.books ++ [nb] }
            primaryCalls := 1, secondaryCalls := 1 }
      ∧ nb.author = "Unknown author" := by
  have hauthor : normalizeAuthor bd.authors secondary = ("Unknown author", 1) := by
    rw [hauth]
    simp only [normalizeAuthor]
    rw [if_neg hkey]
    cases secondary with
    | timeout => rfl
    | requestError msg => rfl
    | response st ad =>
      have hst : st ≠ 200 := hfail
      simp [hst]
  refine ⟨{ id := nextBookId db
            title := normalizeTitle bd.title
            author := "Unknown author"
            isbn := some (pyStrip isbnRaw)
            description := some (normalizeDescription bd.description)
            cover_url := normalizeCover bd.covers }, ?_, rfl⟩
  simp [search_book_by_isbn, hmiss, hauthor]

/-- C2 witness: applies `C2_secondary_failure_swallowed` where the
secondary author call times out. -/
theorem C2_witness :
    ∃ nb, search_book_by_isbn "9780140328721" dbEmpty (.response 200 bd0) .timeout
        = { result := .ok (201, nb), db := { dbEmpty with books := dbEmpty.books ++ [nb] }
            primaryCalls := 1, secondaryCalls := 1 }
      ∧ nb.author = "Unknown author" :=
  C2_secondary_failure_swallowed "9780140328721" dbEmpty bd0 .timeout
    "/authors/OL34184A" [] rfl rfl (by decide) trivial

/-! ## C3: shelf operations on a foreign-owned item -/

/-- C3 counterexample: the shelf item with id 1 exists and is owned by
user 1, but caller bob (id 2) gets 404 "Shelf item not found" — a
NotFound outcome, not a Forbidden one distinguishable from NotFound. -/
theorem C3_counterexample :
    update_shelf_item 1 ⟨none, some 5, none⟩ dbShelf bob
        = (.error ⟨404, "Shelf item not found"⟩, dbShelf)
    ∧ remove_from_shelf 1 dbShelf bob = (.error ⟨404, "Shelf item not found"⟩, dbShelf)
    ∧ (404 : Nat) ≠ 403 :=
  ⟨rfl, rfl, by decide⟩

/-- C3 (amended): updating or deleting a shelf item whose owner differs
from the caller is rejected with 404 "Shelf item not found" — the same
outcome as for a nonexistent item (the owner-scoped query makes the two
indistinguishable) — and the store is unchanged. -/
theorem C3_foreign_item_indistinguishable (item_id : Nat) (upd : ShelfItemUpdate)
    (db : Database) (caller : User)
    (h : ∀ si ∈ db.shelf_items, si.id = item_id → si.user_id ≠ caller.id) :
    update_shelf_item item_id upd db caller = (.error ⟨404, "Shelf item not found"⟩, db)
    ∧ remove_from_shelf item_id db caller = (.error ⟨404, "Shelf item not found"⟩, db) := by
  have hnone : db.shelf_items.find? (ownShelfItem item_id caller.id) = none := by
    rw [List.find?_eq_none]
    intro si hsi
    simp only [ownShelfItem, decide_eq_true_eq, not_and]
    exact h si hsi
  exact ⟨by simp [update_shelf_item, hnone], by simp [remove_from_shelf, hnone]⟩

/-- C3 witness: applies `C3_foreign_item_indistinguishable` with caller
bob against alice's shelf item. -/
theorem C3_witness :
    update_shelf_item 1 ⟨some .COMPLETED, none, none⟩ dbShelf bob
        = (.error ⟨404, "Shelf item not found"⟩, dbShelf)
    ∧ remove_from_shelf 1 dbShelf bob = (.error ⟨404, "Shelf item not found"⟩, dbShelf) :=
  C3_foreign_item_indistinguishable 1 ⟨some .COMPLETED, none, none⟩ dbShelf bob (by decide)

/-! ## C4: book mutation gates -/

/-- C4 counterexample: bob is not an ADMIN, yet `PUT /books/1` succeeds
and changes the book — the claim that non-ADMIN callers are denied and
the Book left unchanged is false for update. -/
theorem C4_counterexample :
    update_book 1 upd0 dbM bob
      = (.ok ⟨1, "New title", "New author", none, none, none⟩,
         ⟨[alice, bob], [⟨1, "New title", "New author", none, none, none⟩], []⟩)
    ∧ bob.role ≠ UserRole.ADMIN :=
  ⟨rfl, by decide⟩

/-- C4 (amended): `DELETE /books/{id}` is denied with 403 for every
non-ADMIN caller, leaving the catalog unchanged; `PUT /books/{id}`
performs no role check at all — its outcome is independent of which
authenticated user calls it. -/
theorem C4_delete_gated_update_ungated (book_id : Nat) (upd : BookCreate)
    (db : Database) (caller : User) (h : caller.role ≠ UserRole.ADMIN) :
    delete_book book_id db caller
      = (.error ⟨403, "Only administrators can delete books"⟩, db)
    ∧ ∀ caller2 : User, update_book book_id upd db caller = update_book book_id upd db caller2 := by
  exact ⟨by simp [delete_book, h], fun caller2 => rfl⟩

/-- C4 witness: applies `C4_delete_gated_update_ungated` with caller bob:
the delete is rejected 403 while the update behaves as for admin alice. -/
theorem C4_witness :
    delete_book 1 dbM bob = (.error ⟨403, "Only administrators can delete books"⟩, dbM)
    ∧ update_book 1 upd0 dbM bob = update_book 1 upd0 dbM alice :=
  ⟨(C4_delete_gated_update_ungated 1 upd0 dbM bob (by decide)).1,
   (C4_delete_gated_update_ungated 1 upd0 dbM bob (by decide)).2 alice⟩

/-! ## C6: ISBN search requires authentication -/

/-- C6 counterexample: a request to `POST /books/search-by-isbn` without
a bearer token is rejected with 401 "Not authenticated" — an
Unauthenticated outcome, contradicting the claim that the endpoint never
rejects unauthenticated callers. -/
theorem C6_counterexample :
    search_by_isbn_route none "9780140328721" dbM .timeout .timeout
      = { result := .error ⟨401, "Not authenticated"⟩, db := dbM
          primaryCalls := 0, secondaryCalls := 0 } := rfl

/-- C6 (amended): the search route depends on `get_current_user`, so a
request without a bearer token is rejected with 401; with a token that
resolves to any stored user (whatever the role) the request proceeds to
the search body. -/
theorem C6_search_requires_token (isbnRaw : String) (db : Database)
    (primary : ExtResult BookData) (secondary : ExtResult AuthorData) :
    search_by_isbn_route none isbnRaw db primary secondary
      = { result := .error ⟨401, "Not authenticated"⟩, db := db
          primaryCalls := 0, secondaryCalls := 0 }
    ∧ ∀ (decoded : DecodeResult) (u : User), get_current_user decoded db = .ok u →
        search_by_isbn_route (some decoded) isbnRaw db primary secondary
          = search_book_by_isbn isbnRaw db primary secondary := by
  refine ⟨rfl, fun decoded u h => ?_⟩
  simp [search_by_isbn_route, h]

/-- C6 witness: applies `C6_search_requires_token` with a token resolving
to the non-admin user bob. -/
theorem C6_witness :
    search_by_isbn_route (some (.payload (some "2"))) "555" dbM .timeout .timeout
      = search_book_by_isbn "555" dbM .timeout .timeout :=
  (C6_search_requires_token "555" dbM .timeout .timeout).2 (.payload (some "2")) bob rfl

/-! ## C8: delete-user gating -/

/-- C8: delete-user is rejected with 403 for every non-ADMIN caller, and
an ADMIN deleting their own id is rejected with 400 — distinct from the
Forbidden status 403; in both cases the database (users and shelf items
included) is unchanged. -/
theorem C8_delete_user_gating (user_id : Nat) (db : Database) (caller : User) :
    (caller.role ≠ UserRole.ADMIN →
      delete_user user_id db caller
        = (.error ⟨403, "Only administrators can delete users"⟩, db))
    ∧ (caller.role = UserRole.ADMIN → caller.id = user_id →
      delete_user user_id db caller = (.error ⟨400, "Cannot delete your own account"⟩, db)
      ∧ (400 : Nat) ≠ 403) := by
  constructor
  · intro h
    simp [delete_user, h]
  · intro h hid
    exact ⟨by simp [delete_user, h, hid], by decide⟩

/-- C8 witness: applies `C8_delete_user_gating` for non-admin bob and for
admin alice targeting her own id. -/
theorem C8_witness :
    delete_user 1 dbM bob = (.error ⟨403, "Only administrators can delete users"⟩, dbM)
    ∧ delete_user 1 dbM alice = (.error ⟨400, "Cannot delete your own account"⟩, dbM) :=
  ⟨(C8_delete_user_gating 1 dbM bob).1 (by decide),
   ((C8_delete_user_gating 1 dbM alice).2 (by decide) (by decide)).1⟩

/-! ## C9: uniform token-verification rejection -/

/-- C9: every failure of `get_current_user` — JWT error (bad signature,
malformed payload, expiry in the past), missing subject claim,
non-integer subject, or a subject id with no stored user — produces one
and the same outcome (401, "Could not validate credentials"); every
outcome is either a user or exactly that error. -/
theorem C9_uniform_unauthenticated (decoded : DecodeResult) (db : Database) :
    ((∃ u, get_current_user decoded db = .ok u)
      ∨ get_current_user decoded db = .error ⟨401, "Could not validate credentials"⟩)
    ∧ get_current_user .jwtError db = .error ⟨401, "Could not validate credentials"⟩
    ∧ get_current_user (.payload none) db = .error ⟨401, "Could not validate credentials"⟩
    ∧ (∀ s : String, pyInt? s = none →
        get_current_user (.payload (some s)) db
          = .error ⟨401, "Could not validate credentials"⟩)
    ∧ (∀ (s : String) (n : Int), pyInt? s = some n →
        db.users.find? (byIdInt n) = none →
        get_current_user (.payload (some s)) db
          = .error ⟨401, "Could not validate credentials"⟩) := by
  refine ⟨?_, rfl, rfl, ?_, ?_⟩
  · cases decoded with
    | jwtError => exact Or.inr rfl
    | payload sub =>
      cases sub with
      | none => exact Or.inr rfl
      | some s =>
        cases hs : pyInt? s with
        | none => exact Or.inr (by simp [get_current_user, hs])
        | some n =>
          cases hf : db.users.find? (byIdInt n) with
          | none => exact Or.inr (by simp [get_current_user, hs, hf])
          | some u => exact Or.inl ⟨u, by simp [get_current_user, hs, hf]⟩
  · intro s hs
    simp [get_current_user, hs]
  · intro s n hs hf
    simp [get_current_user, hs, hf]

/-- C9 witness: applies `C9_uniform_unauthenticated` to a non-integer
subject and to a subject id with no stored user. -/
theorem C9_witness :
    get_current_user (.payload (some "xyz")) dbM
      = .error ⟨401, "Could not validate credentials"⟩
    ∧ get_current_user (.payload (some "99")) dbM
      = .error ⟨401, "Could not validate credentials"⟩ :=
  ⟨(C9_uniform_unauthenticated (.payload (some "xyz")) dbM).2.2.2.1 "xyz" rfl,
   (C9_uniform_unauthenticated (.payload (some "99")) dbM).2.2.2.2 "99" 99 rfl rfl⟩

/-! ## C10: authorization precedes existence in the user endpoints -/

/-- C10: for a caller who is neither ADMIN nor the target, `GET
/users/{id}` and `PUT /users/{id}` reject with 403 "Not authorized"
before any lookup, leaving the store unchanged; the outcome is
independent of the database, so it is identical whether or not the
target user exists. -/
theorem C10_authz_before_existence (user_id : Nat) (upd : UserUpdate) (caller : User)
    (hrole : caller.role ≠ UserRole.ADMIN) (hid : caller.id ≠ user_id) :
    ∀ db db2 : Database,
      get_user user_id db caller = .error ⟨403, "Not authorized"⟩
      ∧ update_user user_id upd db caller = (.error ⟨403, "Not authorized"⟩, db)
      ∧ get_user user_id db caller = get_user user_id db2 caller
      ∧ (update_user user_id upd db caller).1 = (update_user user_id upd db2 caller).1 := by
  intro db db2
  refine ⟨?_, ?_, ?_, ?_⟩ <;> simp [get_user, update_user, hrole, hid]

/-- C10 witness: applies `C10_authz_before_existence` with caller bob on
a database where user 1 exists and one where it does not. -/
theorem C10_witness :
    get_user 1 dbM bob = .error ⟨403, "Not authorized"⟩
    ∧ get_user 1 ⟨[], [], []⟩ bob = get_user 1 dbM bob :=
  ⟨(C10_authz_before_existence 1 ⟨none, none, none⟩ bob (by decide) (by decide) dbM dbM).1,
   ((C10_authz_before_existence 1 ⟨none, none, none⟩ bob (by decide) (by decide)
      ⟨[], [], []⟩ dbM).2).2.1⟩

/-! ## Helper lemmas on the `update_user` pipeline -/

/-- Field-level description of a successful username step. -/
theorem applyUsername_ok (user_id : Nat) (upd : UserUpdate) (db : Database)
    (db_user u1 : User) (h : applyUsername user_id upd db db_user = .ok u1) :
    u1.id = db_user.id ∧ u1.email = db_user.email ∧ u1.role = db_user.role
    ∧ u1.hashed_password = db_user.hashed_password
    ∧ (∀ un, upd.username = some un →
        u1.username = un ∧ db.users.any (usernameTakenBy un user_id) = false)
    ∧ (upd.username = none → u1.username = db_user.username) := by
  unfold applyUsername at h
  cases hu : upd.username with
  | none =>
    rw [hu] at h
    simp only [] at h
    simp only [Except.ok.injEq] at h
    subst h
    exact ⟨rfl, rfl, rfl, rfl, fun un hc => Option.noConfusion hc, fun _ => rfl⟩
  | some un =>
    rw [hu] at h
    simp only [] at h
    by_cases ha : db.users.any (usernameTakenBy un user_id) = true
    · rw [if_pos ha] at h
      exact absurd h (by simp)
    · rw [if_neg ha] at h
      simp only [Except.ok.injEq] at h
      subst h
      refine ⟨rfl, rfl, rfl, rfl, ?_, fun hn => Option.noConfusion hn⟩
      intro un2 h2
      cases Option.some.inj h2
      exact ⟨rfl, by rwa [Bool.not_eq_true] at ha⟩

/-- Field-level description of a successful email step. -/
theorem applyEmail_ok (user_id : Nat) (upd : UserUpdate) (db : Database)
    (u1 u2 : User) (h : applyEmail user_id upd db u1 = .ok u2) :
    u2.id = u1.id ∧ u2.username = u1.username ∧ u2.role = u1.role
    ∧ u2.hashed_password = u1.hashed_password
    ∧ (∀ em, upd.email = some em →
        u2.email = em ∧ db.users.any (emailTakenBy em user_id) = false)
    ∧ (upd.email = none → u2.email = u1.email) := by
  unfold applyEmail at h
  cases he : upd.email with
  | none =>
    rw [he] at h
    simp only [] at h
    simp only [Except.ok.injEq] at h
    subst h
    exact ⟨rfl, rfl, rfl, rfl, fun em hc => Option.noConfusion hc, fun _ => rfl⟩
  | some em =>
    rw [he] at h
    simp only [] at h
    by_cases ha : db.users.any (emailTakenBy em user_id) = true
    · rw [if_pos ha] at h
      exact absurd h (by simp)
    · rw [if_neg ha] at h
      simp only [Except.ok.injEq] at h
      subst h
      refine ⟨rfl, rfl, rfl, rfl, ?_, fun hn => Option.noConfusion hn⟩
      intro em2 h2
      cases Option.some.inj h2
      exact ⟨rfl, by rwa [Bool.not_eq_true] at ha⟩

/-- The role step touches only the role field, and not even that for a
non-ADMIN caller. -/
theorem applyRole_fields (upd : UserUpdate) (caller u2 : User) :
    (applyRole upd caller u2).id = u2.id
    ∧ (applyRole upd caller u2).username = u2.username
    ∧ (applyRole upd caller u2).email = u2.email
    ∧ (applyRole upd caller u2).hashed_password = u2.hashed_password
    ∧ (caller.role ≠ UserRole.ADMIN → applyRole upd caller u2 = u2) := by
  unfold applyRole
  cases hr : upd.role with
  | none => exact ⟨rfl, rfl, rfl, rfl, fun _ => rfl⟩
  | some r =>
    simp only []
    by_cases ha : caller.role = UserRole.ADMIN
    · rw [if_pos ha]
      exact ⟨rfl, rfl, rfl, rfl, fun hc => absurd ha hc⟩
    · rw [if_neg ha]
      exact ⟨rfl, rfl, rfl, rfl, fun _ => rfl⟩

/-- Every run of `update_user` either succeeds, committing exactly the
row-replacement of the target id, or fails leaving the database
unchanged. -/
theorem update_user_cases (user_id : Nat) (upd : UserUpdate) (db : Database)
    (caller : User) :
    (∃ u3, update_user user_id upd db caller
        = (.ok u3, { db with users := db.users.map (fun x => if x.id = user_id then u3 else x) }))
    ∨ ∃ e, update_user user_id upd db caller = (.error e, db) := by
  unfold update_user
  split
  · exact Or.inr ⟨_, rfl⟩
  · split
    · exact Or.inr ⟨_, rfl⟩
    · split
      · exact Or.inr ⟨_, rfl⟩
      · split
        · exact Or.inr ⟨_, rfl⟩
        · exact Or.inl ⟨_, rfl⟩

/-- Characterization of a successful `update_user` run: the target row
exists, the committed database replaces exactly the rows with the target
id by the returned user, whose role is unchanged for a non-ADMIN caller
and whose username/email reflect the request with the uniqueness
pre-checks passed. -/
theorem update_user_ok_core (user_id : Nat) (upd : UserUpdate) (db : Database)
    (caller u3 : User) (db2 : Database)
    (h : update_user user_id upd db caller = (.ok u3, db2)) :
    ∃ tgt, db.users.find? (byUserId user_id) = some tgt
      ∧ db2 = { db with users := db.users.map (fun x => if x.id = user_id then u3 else x) }
      ∧ u3.id = tgt.id
      ∧ (caller.role ≠ UserRole.ADMIN → u3.role = tgt.role)
      ∧ (∀ un, upd.username = some un →
          u3.username = un ∧ db.users.any (usernameTakenBy un user_id) = false)
      ∧ (upd.username = none → u3.username = tgt.username)
      ∧ (∀ em, upd.email = some em →
          u3.email = em ∧ db.users.any (emailTakenBy em user_id) = false)
      ∧ (upd.email = none → u3.email = tgt.email) := by
  unfold update_user at h
  split at h
  · exact absurd h (by simp)
  · split at h
    · exact absurd h (by simp)
    · rename_i tgt hf
      split at h
      · exact absurd h (by simp)
      · rename_i u1 hu
        split at h
        · exact absurd h (by simp)
        · rename_i u2 he
          simp only [Prod.mk.injEq, Except.ok.injEq] at h
          obtain ⟨h1, h2⟩ := h
          subst h1
          subst h2
          obtain ⟨hid1, hem1, hrl1, hpw1, hus1, hun1⟩ :=
            applyUsername_ok user_id upd db tgt u1 hu
          obtain ⟨hid2, hun2, hrl2, hpw2, hes2, hen2⟩ :=
            applyEmail_ok user_id upd db u1 u2 he
          obtain ⟨hid3, hun3, hem3, hpw3, hrl3⟩ := applyRole_fields upd caller u2
          refine ⟨tgt, hf, rfl, ?_, ?_, ?_, ?_, ?_, ?_⟩
          · rw [hid3, hid2, hid1]
          · intro hna
            rw [hrl3 hna, hrl2, hrl1]
          · intro un hun
            exact ⟨by rw [hun3, hun2, (hus1 un hun).1], (hus1 un hun).2⟩
          · intro hn
            rw [hun3, hun2, hun1 hn]
          · intro em hemq
            exact ⟨by rw [hem3, (hes2 em hemq).1], (hes2 em hemq).2⟩
          · intro hn
            rw [hem3, hen2 hn, hem1]

/-! ## C7: the role field of update-user is ADMIN-gated -/

/-- C7: when the caller is not an ADMIN, a successful user update never
changes the stored role (the submitted role value is silently ignored, it
causes no error), and for the self-update that a non-admin is allowed to
perform, the submitted username/email are still applied while the role is
kept; the committed database stores exactly that user. -/
theorem C7_role_field_admin_gated (user_id : Nat) (upd : UserUpdate) (db : Database)
    (caller tgt : User)
    (hrole : caller.role ≠ UserRole.ADMIN)
    (hfind : db.users.find? (byUserId user_id) = some tgt) :
    (∀ u3 db2, update_user user_id upd db caller = (.ok u3, db2) → u3.role = tgt.role)
    ∧ (caller.id = user_id →
       (∀ un, upd.username = some un → db.users.any (usernameTakenBy un user_id) = false) →
       (∀ em, upd.email = some em → db.users.any (emailTakenBy em user_id) = false) →
       update_user user_id upd db caller
         = (.ok { tgt with username := upd.username.getD tgt.username,
                           email := upd.email.getD tgt.email },
            { db with users := db.users.map (fun x =>
                if x.id = user_id then
                  { tgt with username := upd.username.getD tgt.username,
                             email := upd.email.getD tgt.email } else x) })) := by
  constructor
  · intro u3 db2 h
    obtain ⟨tgt2, hf2, _, _, hrl, _, _, _, _⟩ :=
      update_user_ok_core user_id upd db caller u3 db2 h
    cases Option.some.inj (hfind.symm.trans hf2)
    exact hrl hrole
  · intro hself hU hE
    have hguard : ¬(caller.role ≠ UserRole.ADMIN ∧ caller.id ≠ user_id) :=
      fun hc => hc.2 hself
    have hu1 : applyUsername user_id upd db tgt
        = .ok { tgt with username := upd.username.getD tgt.username } := by
      unfold applyUsername
      cases hu : upd.username with
      | none => rfl
      | some un =>
        simp only []
        rw [if_neg (by rw [hU un hu]; exact Bool.false_ne_true)]
        rfl
    have hu2 : applyEmail user_id upd db { tgt with username := upd.username.getD tgt.username }
        = .ok { tgt with username := upd.username.getD tgt.username,
                         email := upd.email.getD tgt.email } := by
      unfold applyEmail
      cases he : upd.email with
      | none => rfl
      | some em =>
        simp only []
        rw [if_neg (by rw [hE em he]; exact Bool.false_ne_true)]
        rfl
    have hu3 : applyRole upd caller
        { tgt with username := upd.username.getD tgt.username,
                   email := upd.email.getD tgt.email }
        = { tgt with username := upd.username.getD tgt.username,
                     email := upd.email.getD tgt.email } := by
      unfold applyRole
      cases hr : upd.role with
      | none => rfl
      | some r =>
        simp only []
        rw [if_neg hrole]
    unfold update_user
    rw [if_neg hguard, hfind]
    simp only []
    rw [hu1]
    simp only []
    rw [hu2]
    simp only []
    rw [hu3]

/-- C7 witness: applies `C7_role_field_admin_gated`: the non-admin bob
updates himself submitting a new username together with role ADMIN; the
role submission is ignored, the username is applied, and no error is
raised. -/
theorem C7_witness :
    update_user 2 ⟨some "bobby", none, some .ADMIN⟩ dbM bob
      = (.ok { bob with username := "bobby" },
         { dbM with users := dbM.users.map (fun x =>
             if x.id = 2 then { bob with username := "bobby" } else x) }) :=
  (C7_role_field_admin_gated 2 ⟨some "bobby", none, some .ADMIN⟩ dbM bob bob
      (by decide) rfl).2 rfl
    (fun un hx => by cases Option.some.inj hx; decide)
    (fun em hx => Option.noConfusion hx)

/-! ## C5: identity uniqueness -/

/-- Replacing exactly the rows carrying a given id preserves a pairwise
relation, provided ids are pairwise distinct and the replacement row is
related (both ways) to every row with a different id. -/
theorem pairwise_map_update {P : User → User → Prop} (l : List User) (tid : Nat) (u3 : User)
    (hid : l.Pairwise (fun a b => a.id ≠ b.id))
    (hP : l.Pairwise P)
    (hu : ∀ x ∈ l, x.id ≠ tid → P x u3 ∧ P u3 x) :
    (l.map (fun x => if x.id = tid then u3 else x)).Pairwise P := by
  induction l with
  | nil => simp
  | cons a t ih =>
    rw [List.pairwise_cons] at hid hP
    rw [List.map_cons, List.pairwise_cons]
    refine ⟨?_, ih hid.2 hP.2 (fun x hx hxe => hu x (List.mem_cons_of_mem a hx) hxe)⟩
    intro b hb
    rw [List.mem_map] at hb
    obtain ⟨x, hx, rfl⟩ := hb
    show P (if a.id = tid then u3 else a) (if x.id = tid then u3 else x)
    by_cases hxa : x.id = tid
    · rw [if_pos hxa]
      by_cases haid : a.id = tid
      · exact absurd (haid.trans hxa.symm) (hid.1 x hx)
      · rw [if_neg haid]
        exact (hu a (List.mem_cons_self a t) haid).1
    · rw [if_neg hxa]
      by_cases haid : a.id = tid
      · rw [if_pos haid]
        exact (hu x (List.mem_cons_of_mem a hx) hxa).2
      · rw [if_neg haid]
        exact hP.1 x hx

/-- C5 counterexample: registering a fresh username with an email already
held by an existing user is not rejected with the application's 400
Conflict outcome before commit — the handler pre-checks only the
username, and the duplicate email surfaces as the storage constraint's
uncaught 500 error at commit. -/
theorem C5_counterexample :
    register "charlie" "alice@example.com" "pw" dbM
      = (.error ⟨500, "Internal Server Error"⟩, dbM)
    ∧ (500 : Nat) ≠ 400 :=
  ⟨rfl, by decide⟩

/-- C5 (amended): on a store with unique ids, usernames and emails, both
uniqueness invariants are preserved by registration and by user update; a
registration with a taken username is rejected 400 before commit with the
store unchanged, but a taken email passes the application pre-checks and
is rejected only by the storage unique constraint at commit, surfacing as
a 500 Internal error with the store unchanged; a user update submitting a
username or email held by a different user never commits and leaves the
store unchanged, and when the caller is authorized (ADMIN or self) and
the target exists that rejection is the 400 Conflict outcome before
commit — "Username already taken", or "Email already taken" once the
username pre-check passes. -/
theorem C5_identity_uniqueness (username email password : String) (user_id : Nat)
    (upd : UserUpdate) (db : Database) (caller : User)
    (hids : IdsUnique db) (hun : UsernamesUnique db) (hem : EmailsUnique db) :
    (UsernamesUnique (register username email password db).2
      ∧ EmailsUnique (register username email password db).2)
    ∧ (UsernamesUnique (update_user user_id upd db caller).2
      ∧ EmailsUnique (update_user user_id upd db caller).2)
    ∧ (db.users.any (byUsername username) = true →
        register username email password db
          = (.error ⟨400, "Username already registered"⟩, db))
    ∧ (db.users.any (byUsername username) = false →
        db.users.any (byEmail email) = true →
        register username email password db
          = (.error ⟨500, "Internal Server Error"⟩, db))
    ∧ (∀ un, upd.username = some un → db.users.any (usernameTakenBy un user_id) = true →
        (update_user user_id upd db caller).2 = db
        ∧ ∀ u3 db2, update_user user_id upd db caller ≠ (.ok u3, db2))
    ∧ (∀ em, upd.email = some em → db.users.any (emailTakenBy em user_id) = true →
        (update_user user_id upd db caller).2 = db
        ∧ ∀ u3 db2, update_user user_id upd db caller ≠ (.ok u3, db2))
    ∧ (∀ un tgt, upd.username = some un →
        db.users.any (usernameTakenBy un user_id) = true →
        ¬(caller.role ≠ UserRole.ADMIN ∧ caller.id ≠ user_id) →
        db.users.find? (byUserId user_id) = some tgt →
        update_user user_id upd db caller = (.error ⟨400, "Username already taken"⟩, db))
    ∧ (∀ em tgt, upd.email = some em →
        db.users.any (emailTakenBy em user_id) = true →
        (∀ un, upd.username = some un → db.users.any (usernameTakenBy un user_id) = false) →
        ¬(caller.role ≠ UserRole.ADMIN ∧ caller.id ≠ user_id) →
        db.users.find? (byUserId user_id) = some tgt →
        update_user user_id upd db caller = (.error ⟨400, "Email already taken"⟩, db)) := by
  have hregpres : UsernamesUnique (register username email password db).2
      ∧ EmailsUnique (register username email password db).2 := by
    cases hf : db.users.find? (byUsername username) with
    | some u =>
      have hr : register username email password db
          = (.error ⟨400, "Username already registered"⟩, db) := by
        simp [register, hf]
      rw [hr]
      exact ⟨hun, hem⟩
    | none =>
      by_cases hE : db.users.any (byEmail email) = true
      · have hr : register username email password db
            = (.error ⟨500, "Internal Server Error"⟩, db) := by
          simp [register, hf, hE]
        rw [hr]
        exact ⟨hun, hem⟩
      · have hE2 : db.users.any (byEmail email) = false := by
          rwa [Bool.not_eq_true] at hE
        have hr : register username email password db
            = (.ok (newRegUser username email password db),
               { db with users := db.users ++ [newRegUser username email password db] }) := by
          simp [register, hf, hE2]
        rw [hr]
        constructor
        · simp only [UsernamesUnique]
          rw [List.pairwise_append]
          refine ⟨hun, by simp, ?_⟩
          intro a ha b hb
          rw [List.mem_singleton] at hb
          subst hb
          have hne := List.find?_eq_none.mp hf a ha
          simp only [byUsername, decide_eq_true_eq] at hne
          exact hne
        · simp only [EmailsUnique]
          rw [List.pairwise_append]
          refine ⟨hem, by simp, ?_⟩
          intro a ha b hb
          rw [List.mem_singleton] at hb
          subst hb
          have hne := List.any_eq_false.mp hE2 a ha
          simp only [byEmail, decide_eq_true_eq] at hne
          exact hne
  have hupdpres : UsernamesUnique (update_user user_id upd db caller).2
      ∧ EmailsUnique (update_user user_id upd db caller).2 := by
    rcases update_user_cases user_id upd db caller with ⟨u3, hok⟩ | ⟨e, herr⟩
    · obtain ⟨tgt, hf, _hdb2, _hid3, _hrl, hus, hunn, hes, henn⟩ :=
        update_user_ok_core user_id upd db caller u3 _ hok
      have htgtmem : tgt ∈ db.users := List.mem_of_find?_eq_some hf
      have htgtid : tgt.id = user_id := by
        have hp := List.find?_some hf
        simpa [byUserId] using hp
      rw [hok]
      constructor
      · simp only [UsernamesUnique]
        apply pairwise_map_update db.users user_id u3 hids hun
        intro x hx hxid
        cases hu2 : upd.username with
        | some un =>
          obtain ⟨hname, hfree⟩ := hus un hu2
          have hfree2 := List.any_eq_false.mp hfree x hx
          simp only [usernameTakenBy, decide_eq_true_eq, not_and] at hfree2
          have hxun : x.username ≠ un := fun hc => hfree2 hc hxid
          rw [hname]
          exact ⟨hxun, Ne.symm hxun⟩
        | none =>
          have hname := hunn hu2
          have hxt : x ≠ tgt := fun hc => hxid (by rw [hc, htgtid])
          have hx2 : x.username ≠ tgt.username :=
            List.Pairwise.forall (fun a b h => Ne.symm h) hun hx htgtmem hxt
          rw [hname]
          exact ⟨hx2, Ne.symm hx2⟩
      · simp only [EmailsUnique]
        apply pairwise_map_update db.users user_id u3 hids hem
        intro x hx hxid
        cases he2 : upd.email with
        | some em =>
          obtain ⟨hname, hfree⟩ := hes em he2
          have hfree2 := List.any_eq_false.mp hfree x hx
          simp only [emailTakenBy, decide_eq_true_eq, not_and] at hfree2
          have hxem : x.email ≠ em := fun hc => hfree2 hc hxid
          rw [hname]
          exact ⟨hxem, Ne.symm hxem⟩
        | none =>
          have hname := henn he2
          have hxt : x ≠ tgt := fun hc => hxid (by rw [hc, htgtid])
          have hx2 : x.email ≠ tgt.email :=
            List.Pairwise.forall (fun a b h => Ne.symm h) hem hx htgtmem hxt
          rw [hname]
          exact ⟨hx2, Ne.symm hx2⟩
    · rw [herr]
      exact ⟨hun, hem⟩
  have hreg3 : db.users.any (byUsername username) = true →
      register username email password db
        = (.error ⟨400, "Username already registered"⟩, db) := by
    intro hA
    obtain ⟨u, hu1, hu2⟩ := List.any_eq_true.mp hA
    cases hf : db.users.find? (byUsername username) with
    | none => exact absurd hu2 (List.find?_eq_none.mp hf u hu1)
    | some u2 => simp [register, hf]
  have hreg4 : db.users.any (byUsername username) = false →
      db.users.any (byEmail email) = true →
      register username email password db
        = (.error ⟨500, "Internal Server Error"⟩, db) := by
    intro hNo hE
    have hf : db.users.find? (byUsername username) = none :=
      List.find?_eq_none.mpr (List.any_eq_false.mp hNo)
    simp [register, hf, hE]
  have hupd5 : ∀ un, upd.username = some un →
      db.users.any (usernameTakenBy un user_id) = true →
      (update_user user_id upd db caller).2 = db
      ∧ ∀ u3 db2, update_user user_id upd db caller ≠ (.ok u3, db2) := by
    intro un hsu hA
    have hnotok : ∀ u3 db2, update_user user_id upd db caller ≠ (.ok u3, db2) := by
      intro u3 db2 hok
      obtain ⟨_, _, _, _, _, hus, _, _, _⟩ :=
        update_user_ok_core user_id upd db caller u3 db2 hok
      rw [(hus un hsu).2] at hA
      exact Bool.false_ne_true hA
    refine ⟨?_, hnotok⟩
    rcases update_user_cases user_id upd db caller with ⟨u3, hok⟩ | ⟨e, herr⟩
    · exact absurd hok (hnotok _ _)
    · rw [herr]
  have hupd6 : ∀ em, upd.email = some em →
      db.users.any (emailTakenBy em user_id) = true →
      (update_user user_id upd db caller).2 = db
      ∧ ∀ u3 db2, update_user user_id upd db caller ≠ (.ok u3, db2) := by
    intro em hse hA
    have hnotok : ∀ u3 db2, update_user user_id upd db caller ≠ (.ok u3, db2) := by
      intro u3 db2 hok
      obtain ⟨_, _, _, _, _, _, _, hes, _⟩ :=
        update_user_ok_core user_id upd db caller u3 db2 hok
      rw [(hes em hse).2] at hA
      exact Bool.false_ne_true hA
    refine ⟨?_, hnotok⟩
    rcases update_user_cases user_id upd db caller with ⟨u3, hok⟩ | ⟨e, herr⟩
    · exact absurd hok (hnotok _ _)
    · rw [herr]
  have hupd7 : ∀ un tgt, upd.username = some un →
      db.users.any (usernameTakenBy un user_id) = true →
      ¬(caller.role ≠ UserRole.ADMIN ∧ caller.id ≠ user_id) →
      db.users.find? (byUserId user_id) = some tgt →
      update_user user_id upd db caller
        = (.error ⟨400, "Username already taken"⟩, db) := by
    intro un tgt hsu hA hga hft
    have hstep : applyUsername user_id upd db tgt
        = .error ⟨400, "Username already taken"⟩ := by
      unfold applyUsername
      rw [hsu]
      simp only []
      rw [if_pos hA]
    unfold update_user
    rw [if_neg hga, hft]
    simp only []
    rw [hstep]
  have hupd8 : ∀ em tgt, upd.email = some em →
      db.users.any (emailTakenBy em user_id) = true →
      (∀ un, upd.username = some un → db.users.any (usernameTakenBy un user_id) = false) →
      ¬(caller.role ≠ UserRole.ADMIN ∧ caller.id ≠ user_id) →
      db.users.find? (byUserId user_id) = some tgt →
      update_user user_id upd db caller
        = (.error ⟨400, "Email already taken"⟩, db) := by
    intro em tgt hse hA hU hga hft
    have hu1 : applyUsername user_id upd db tgt
        = .ok { tgt with username := upd.username.getD tgt.username } := by
      unfold applyUsername
      cases hu : upd.username with
      | none => rfl
      | some un =>
        simp only []
        rw [if_neg (by rw [hU un hu]; exact Bool.false_ne_true)]
        rfl
    have hstep : applyEmail user_id upd db
        { tgt with username := upd.username.getD tgt.username }
        = .error ⟨400, "Email already taken"⟩ := by
      unfold applyEmail
      rw [hse]
      simp only []
      rw [if_pos hA]
    unfold update_user
    rw [if_neg hga, hft]
    simp only []
    rw [hu1]
    simp only []
    rw [hstep]
  exact ⟨hregpres, hupdpres, hreg3, hreg4, hupd5, hupd6, hupd7, hupd8⟩

/-- C5 witness: applies `C5_identity_uniqueness` on the concrete store:
a registration reusing alice's email under a fresh username hits the
storage constraint (500); a registration with fresh username and email
preserves username uniqueness; and bob's self-update submitting alice's
username, or alice's email, is rejected with the 400 Conflict outcome,
store unchanged. -/
theorem C5_witness :
    register "charlie" "alice@example.com" "pw" dbM
      = (.error ⟨500, "Internal Server Error"⟩, dbM)
    ∧ UsernamesUnique (register "dave" "dave@example.com" "pw" dbM).2
    ∧ update_user 2 ⟨some "alice", none, none⟩ dbM bob
        = (.error ⟨400, "Username already taken"⟩, dbM)
    ∧ update_user 2 ⟨none, some "alice@example.com", none⟩ dbM bob
        = (.error ⟨400, "Email already taken"⟩, dbM) := by
  have hids : IdsUnique dbM := by simp [IdsUnique, dbM, alice, bob]
  have hun : UsernamesUnique dbM := by simp [UsernamesUnique, dbM, alice, bob]
  have hem : EmailsUnique dbM := by simp [EmailsUnique, dbM, alice, bob]
  refine ⟨?_, ?_, ?_, ?_⟩
  · exact (C5_identity_uniqueness "charlie" "alice@example.com" "pw" 1
      ⟨none, none, none⟩ dbM alice hids hun hem).2.2.2.1 (by decide) (by decide)
  · exact (C5_identity_uniqueness "dave" "dave@example.com" "pw" 1
      ⟨none, none, none⟩ dbM alice hids hun hem).1.1
  · exact (C5_identity_uniqueness "x" "x@example.com" "pw" 2
      ⟨some "alice", none, none⟩ dbM bob hids hun hem).2.2.2.2.2.2.1
      "alice" bob rfl (by decide) (by decide) rfl
  · exact (C5_identity_uniqueness "x" "x@example.com" "pw" 2
      ⟨none, some "alice@example.com", none⟩ dbM bob hids hun hem).2.2.2.2.2.2.2
      "alice@example.com" bob rfl (by decide)
      (fun un h => Option.noConfusion h) (by decide) rfl

end BookWorm
